import Mathlib

set_option maxRecDepth 10000

/-!
Shallow embedding of the twitchlurkerbothunter scanning core, translated from
the repository sources:

* server/core/viewerlist_fetcher/workbench.py
* server/utils/redis_shared_queue.py
* server/core/twitch_secrets_manager.py
* server/core/viewerlist_fetcher/channel_listener.py
* server/core/viewerlist_fetcher/viewerlist_fetcher.py
* server/core/viewerlist_fetcher/viewer_sightings_cache.py
* app/models/stream_viewerlist_fetch.py

Time values produced by time.perf_counter / datetime.now are modelled as
integers; Redis-hosted state is modelled as explicit association lists that
the atomic server-side scripts transform in one step.  All string helpers are
written by structural recursion on character lists so that concrete runs
reduce inside the kernel.
-/

deriving instance DecidableEq for Except

/-- Helper for splitting a character list at a single separator character. -/
def splitCharAux (sep : Char) : List Char → List Char → List (List Char)
  | [], acc => [acc.reverse]
  | c :: rest, acc =>
      if c = sep then acc.reverse :: splitCharAux sep rest []
      else splitCharAux sep rest (c :: acc)

/-- Python str.split(sep) for a single-character separator. -/
def pySplitC (sep : Char) (s : String) : List String :=
  (splitCharAux sep s.toList []).map String.mk

/-- Helper for splitting a character list at every carriage-return line-feed
pair, scanning left to right over non-overlapping occurrences. -/
def splitCrlfAux : List Char → List Char → List (List Char)
  | [], acc => [acc.reverse]
  | '\r' :: '\n' :: rest, acc => acc.reverse :: splitCrlfAux rest []
  | c :: rest, acc => splitCrlfAux rest (c :: acc)

/-- Python data.split on the two-character CRLF separator. -/
def pySplitCrlf (s : String) : List String :=
  (splitCrlfAux s.toList []).map String.mk

/-- Python str.split() with no argument: split on whitespace, dropping empty
pieces. -/
def pySplitWs (s : String) : List String :=
  ((splitCharAux ' ' (s.toList.map fun c => if c.isWhitespace then ' ' else c)
      []).map String.mk).filter (fun t => t ≠ "")

/-- Python str.strip() restricted to whitespace, as used by the listener. -/
def pyStrip (s : String) : String :=
  String.mk
    (((s.toList.dropWhile Char.isWhitespace).reverse.dropWhile
        Char.isWhitespace).reverse)

/-- Python str.lstrip for a one-character strip set, used as lstrip on the
hash character in the listener. -/
def pyLstrip (c : Char) (s : String) : String :=
  String.mk (s.toList.dropWhile (fun x => x = c))

/-- Python str.lower for the ASCII channel and login names handled here. -/
def pyLower (s : String) : String :=
  String.mk (s.toList.map Char.toLower)

/-- Python substring containment, the in operator on str. -/
def strContains (hay pat : String) : Bool :=
  hay.toList.tails.any (fun t => pat.toList.isPrefixOf t)

/-- Lookup in a Python dict modelled as an association list (first match). -/
def dictGet {α : Type} : List (String × α) → String → Option α
  | [], _ => none
  | (k2, v) :: rest, k => if k2 = k then some v else dictGet rest k

/-- Assignment d[k] = v on a Python dict modelled as an association list:
replace in place when the key exists, append otherwise. -/
def dictSet {α : Type} : List (String × α) → String → α → List (String × α)
  | [], k, v => [(k, v)]
  | (k2, v2) :: rest, k, v =>
      if k2 = k then (k, v) :: rest else (k2, v2) :: dictSet rest k v

/-- Python set.add on a set modelled as a duplicate-free list preserving
first-insertion order. -/
def pySetAdd (s : List String) (x : String) : List String :=
  if x ∈ s then s else s ++ [x]

/-- Python set.update with an iterable. -/
def pySetUpdate (s : List String) (xs : List String) : List String :=
  xs.foldl pySetAdd s

/-- Python set(xs) built from a list. -/
def pySetOf (xs : List String) : List String := pySetUpdate [] xs

/-- Parse an unsigned decimal numeral from characters, none when any
character is not a digit or the list is empty. -/
def parseNatDigits : List Char → Option Nat
  | [] => none
  | cs => cs.foldl
      (fun acc c =>
        match acc with
        | none => none
        | some n => if c.isDigit then some (n * 10 + (c.toNat - 48)) else none)
      (some 0)

/-! ## server/utils/redis_shared_queue.py -/

/-- Python value passed positionally through the queue constructor: the
namespace and size_limit parameters can receive a string, an int, or None
depending on the call site. -/
inductive PyVal
  | vStr (s : String)
  | vInt (n : Int)
  | vNone
  deriving DecidableEq

/-- Python str() of a PyVal, as performed by f-string interpolation. -/
def PyVal.str : PyVal → String
  | .vStr s => s
  | .vInt n => toString n
  | .vNone => "None"

/-- Evaluation of the Lua expression tonumber(t) where t is the text spliced
into the script source by the f-string: an integer literal converts to that
number, while an identifier such as queue or None names an unset Lua global,
so the expression evaluates tonumber(nil) = nil. -/
def luaTonumberSpliced (t : String) : Option Int :=
  match t.toList with
  | '-' :: rest => (parseNatDigits rest).map (fun n => -(n : Int))
  | cs => (parseNatDigits cs).map (fun n => (n : Int))

/-- Connection-independent state built by RedisSharedQueue.__init__(self,
name, namespace = "queue", size_limit = None): the Redis key
f"{namespace}:{name}", the stored size_limit, and the numeric value the
size-limit Lua script (whose source interpolates tonumber({self.size_limit}))
will see. -/
structure RedisSharedQueue where
  key : String
  size_limit : PyVal
  scriptSizeLimit : Option Int
  deriving DecidableEq

/-- RedisSharedQueue.__init__ with its three positional parameters in source
order: name, then namespace, then size_limit. -/
def RedisSharedQueue.init (name : String) (ns : PyVal) (size_limit : PyVal) :
    RedisSharedQueue :=
  { key := PyVal.str ns ++ ":" ++ name
  , size_limit := size_limit
  , scriptSizeLimit := luaTonumberSpliced (PyVal.str size_limit) }

/-- RedisSharedQueueDetails: name, optional size_limit, namespace (default
"queue"). -/
structure RedisSharedQueueDetails where
  name : String
  size_limit : Option Int
  ns : String
  deriving DecidableEq

/-- get_redis_shared_queue(details) constructs
RedisSharedQueue(details.name, details.size_limit, details.namespace, ...):
the second and third positional arguments land in the namespace and
size_limit parameters of __init__ respectively, exactly as in the source. -/
def get_redis_shared_queue (details : RedisSharedQueueDetails) :
    RedisSharedQueue :=
  RedisSharedQueue.init details.name
    (match details.size_limit with
     | none => PyVal.vNone
     | some n => PyVal.vInt n)
    (PyVal.vStr details.ns)

/-- Outcome of RedisSharedQueue.enqueue. -/
inductive EnqueueResult
  | ok
  | redisSharedQueueFull
  | redisSharedQueueError (msg : String)
  deriving DecidableEq

/-- RedisSharedQueue.enqueue acting on the queue contents at the key: the
registered Lua script runs atomically server-side.  With size_limit not None
the size-limit script runs: it pushes only when LLEN < the interpolated
limit and returns 0 otherwise (raised as RedisSharedQueueFull); when the
interpolated limit is not numeric the Lua comparison against nil raises a
response error that the method wraps as RedisSharedQueueError.  Without a
size_limit the no-limit script pushes unconditionally. -/
def RedisSharedQueue.enqueue (q : RedisSharedQueue) (contents : List String)
    (item : String) : EnqueueResult × List String :=
  if q.size_limit ≠ PyVal.vNone then
    match q.scriptSizeLimit with
    | none => (.redisSharedQueueError "Failed to enqueue.", contents)
    | some lim =>
        if (contents.length : Int) < lim then (.ok, contents ++ [item])
        else (.redisSharedQueueFull, contents)
  else (.ok, contents ++ [item])

/-- Model of json.loads as applied to the queue payloads occurring in this
development: the items the conductor moves are plain channel-name strings,
which json.loads rejects, so the except JSONDecodeError branch substitutes
the empty dict. -/
def jsonLoadsDictOrEmpty (raw : String) : List (String × String) := []

/-- RedisSharedQueue.dequeue: a queue_size pre-check returns the (None,
empty-dict) sentinel when the queue is empty, without running the
blocking-pop script; otherwise the BLPOP script pops the head.  The result
records the returned pair, whether the blocking-pop script was invoked, and
the remaining queue contents.  The timeout argument is only ever forwarded
to BLPOP. -/
def RedisSharedQueue.dequeue (contents : List String) (timeout : Int) :
    (Option String × List (String × String)) × Bool × List String :=
  if contents.length = 0 then ((none, []), false, contents)
  else
    match contents with
    | [] => ((none, []), true, [])
    | x :: rest => ((some x, jsonLoadsDictOrEmpty x), true, rest)

/-- Outcome of a remaining_space call. -/
inductive RemainingSpaceResult
  | val (v : Option Int)
  | typeErrorRaised
  deriving DecidableEq

/-- RedisSharedQueue.remaining_space: None when the stored size_limit is
None, otherwise self.size_limit - llen(key) — an int subtraction when the
stored limit is an int, and a TypeError when it is a string (as it is for
every queue obtained through the argument-swapped builder). -/
def RedisSharedQueue.remaining_space (q : RedisSharedQueue)
    (contents : List String) : RemainingSpaceResult :=
  match q.size_limit with
  | .vNone => .val none
  | .vInt l => .val (some (l - (contents.length : Int)))
  | .vStr _ => .typeErrorRaised

/-! ## server/core/viewerlist_fetcher/workbench.py -/

/-- Workbench state: the rate-limit bookkeeping set up in Workbench.__init__
together with the contents stored at the two queue keys.  ratelimitTimebox
is float(Config.TWITCH_CHANNEL_JOIN_LIMIT_PER_SECONDS) (default 10) and
joinLimitCount is Config.TWITCH_CHANNEL_JOIN_LIMIT_COUNT (default 20,
environment-configurable), passed to the workbench queue details as
size_limit; lastUpdateTimemarker is set to perf_counter() at construction
and nothing in the source ever writes it again. -/
structure Workbench where
  lastUpdateTimemarker : Int
  ratelimitTimebox : Int
  joinLimitCount : Int
  pending : List String
  workbench : List String
  deriving DecidableEq

/-- The workbench queue Workbench.__init__ builds:
get_redis_shared_queue(RedisSharedQueueDetails(name = "workbench",
size_limit = Config.TWITCH_CHANNEL_JOIN_LIMIT_COUNT)).  Through the swapped
builder arguments its stored size_limit is the string "queue". -/
def Workbench.workbenchQueue (wb : Workbench) : RedisSharedQueue :=
  get_redis_shared_queue
    { name := "workbench", size_limit := some wb.joinLimitCount,
      ns := "queue" }

/-- The pending queue Workbench.__init__ builds:
get_redis_shared_queue(RedisSharedQueueDetails(name = "pending")). -/
def Workbench.pendingQueue : RedisSharedQueue :=
  get_redis_shared_queue { name := "pending", size_limit := none, ns := "queue" }

/-- Outcome of one Workbench.update call: a normal return with the reported
flag, or an uncaught exception propagating out of the coroutine; either
carries the state afterwards. -/
inductive WorkbenchUpdateOutcome
  | returns (b : Bool) (wb : Workbench)
  | raises (wb : Workbench)
  deriving DecidableEq

/-- Enqueue each item in turn via RedisSharedQueue.enqueue, as the gathered
enqueue tasks of Workbench.update do; none when any enqueue raises. -/
def enqueueAll (q : RedisSharedQueue) :
    List String → List String → Option (List String)
  | contents, [] => some contents
  | contents, x :: rest =>
      match RedisSharedQueue.enqueue q contents x with
      | (.ok, contents2) => enqueueAll q contents2 rest
      | (_, _) => none

/-- Workbench.update at the perf_counter instant now, over the queues that
__init__ actually builds: when ratelimitTimebox + lastUpdateTimemarker >=
now the method logs, returns False and changes nothing.  Past the gate it
reads the pending size (LLEN, limit-independent) and then calls
remaining_space() on the workbench queue; for the queue the swapped builder
returns that subtraction raises TypeError, which leaves update before any
dequeue.  The remaining arms keep the source behavior for a numeric or
absent stored limit: with a non-empty pending queue, range(space) many
dequeues run (a None space makes range raise TypeError), the items obtained
are enqueued onto the workbench (an enqueue exception propagates with the
pending queue already drained), and True is returned; with an empty pending
queue the transfer is skipped and True is returned. -/
def Workbench.update (wb : Workbench) (now : Int) : WorkbenchUpdateOutcome :=
  if wb.ratelimitTimebox + wb.lastUpdateTimemarker ≥ now then .returns false wb
  else
    let pendingSize := wb.pending.length
    match RedisSharedQueue.remaining_space wb.workbenchQueue wb.workbench with
    | .typeErrorRaised => .raises wb
    | .val spaceOpt =>
        if pendingSize > 0 then
          match spaceOpt with
          | none => .raises wb
          | some space =>
              let moved := wb.pending.take space.toNat
              let wb1 := { wb with pending := wb.pending.drop space.toNat }
              match enqueueAll wb.workbenchQueue wb.workbench moved with
              | none => .raises wb1
              | some newContents =>
                  .returns true { wb1 with workbench := newContents }
        else .returns true wb

/-! ## server/core/viewerlist_fetcher/viewerlist_fetcher.py -/

/-- ViewerListFetcher worker state: the _working flag, the workbench queue
contents the worker dequeues from, the channels processed so far, and
whether the listener has been closed (which the source does only after the
processing loop exits). -/
structure ViewerListFetcher where
  working : Bool
  workbench : List String
  processed : List String
  listenerClosed : Bool
  deriving DecidableEq

/-- One execution of the ViewerListFetcher.processing_loop body: dequeue from
the workbench (default timeout 2); when the sentinel None comes back, set
_working to False; otherwise connect the listener and fetch the viewer list
for the dequeued channel. -/
def ViewerListFetcher.loopBody (st : ViewerListFetcher) : ViewerListFetcher :=
  match RedisSharedQueue.dequeue st.workbench 2 with
  | ((none, _), _, rest) => { st with working := false, workbench := rest }
  | ((some ch, _), _, rest) =>
      { st with workbench := rest, processed := st.processed ++ [ch] }

/-- ViewerListFetcher.processing_loop with a fuel bound on the number of
while-condition checks: while _working holds, run the body; once it fails,
close the listener. -/
def ViewerListFetcher.processing_loop :
    Nat → ViewerListFetcher → ViewerListFetcher
  | 0, st => st
  | n + 1, st =>
      if st.working then ViewerListFetcher.processing_loop n st.loopBody
      else { st with listenerClosed := true }

/-! ## server/core/twitch_secrets_manager.py -/

/-- Secret row as validated by SecretCreate; expires_in carries the
validation constraint Field(..., gt=0). -/
structure Secret where
  access_token : String
  refresh_token : String
  expires_in : Int
  token_type : String
  scope : String
  deriving DecidableEq

/-- In-process state of the TwitchSecretsManager singleton. -/
structure TwitchSecretsManager where
  secrets_store : Option Secret
  expiration_time : Option Int
  deriving DecidableEq

/-- Response of the refresh endpoint call made by _refresh_tokens. -/
structure RefreshResponse where
  access_token : String
  refresh_token : String
  expires_in : Int
  deriving DecidableEq

/-- TwitchSecretsManager._refresh_tokens at instant now: requires a
non-empty store, calls revitalize_tokens, builds the new secret keeping the
stored token_type and scope, and persists it via _insert_or_update_secret,
which also recomputes expiration_time from the persist instant. -/
def TwitchSecretsManager.refresh_tokens (sm : TwitchSecretsManager)
    (resp : RefreshResponse) (now : Int) : Except String TwitchSecretsManager :=
  match sm.secrets_store with
  | none => .error "Cannot refresh / no tokens present."
  | some s =>
      .ok { secrets_store := some
              { access_token := resp.access_token
              , refresh_token := resp.refresh_token
              , expires_in := resp.expires_in
              , token_type := s.token_type
              , scope := s.scope }
          , expiration_time := some (now + resp.expires_in) }

/-- TwitchSecretsManager.get_access_token at instant now, where db is the
Credential row fetch_secret would return and resp the refresh endpoint
response were it called.  The result carries the returned token, the
post-call state, and whether _refresh_tokens was invoked.  Faithful to the
source order: load the store from the DB when empty; when the store is
non-empty, recompute expiration_time as now + expires_in; then compare now
against that fresh expiration_time and refresh when now is not below it;
raise when the store is still empty; return the stored access token.  (The
nested re-acquisition of the non-reentrant asyncio lock inside the refresh
call is not modelled; the comparison makes that branch unreachable for
validated secrets.) -/
def TwitchSecretsManager.get_access_token (sm : TwitchSecretsManager)
    (db : Option Secret) (resp : RefreshResponse) (now : Int) :
    Except String (String × TwitchSecretsManager × Bool) :=
  let store1 := match sm.secrets_store with
    | none => db
    | some s => some s
  match store1 with
  | none => .error "No token. Use oauth servlet."
  | some s =>
      let expTime := now + s.expires_in
      if now ≥ expTime then
        match TwitchSecretsManager.refresh_tokens
            { secrets_store := some s, expiration_time := some expTime }
            resp now with
        | .error e => .error e
        | .ok sm2 =>
            match sm2.secrets_store with
            | none => .error "No token. Use oauth servlet."
            | some s2 => .ok (s2.access_token, sm2, true)
      else
        .ok (s.access_token,
             { secrets_store := some s, expiration_time := some expTime },
             false)

/-! ## app/models/stream_viewerlist_fetch.py -/

/-- StreamViewerListFetchStatus, a StrEnum with exactly these members. -/
inductive StreamViewerListFetchStatus
  | pending
  | in_queue
  | waiting_on_viewer_list
  | complete
  deriving DecidableEq

/-- String value of each StreamViewerListFetchStatus member. -/
def StreamViewerListFetchStatus.value : StreamViewerListFetchStatus → String
  | .pending => "pending"
  | .in_queue => "in_queue"
  | .waiting_on_viewer_list => "waiting_on_viewer_list"
  | .complete => "complete"

/-- The members in declaration order, which is the documented lifecycle
order of a fetch. -/
def fetchStatusChain : List StreamViewerListFetchStatus :=
  [.pending, .in_queue, .waiting_on_viewer_list, .complete]

/-- Lookup by value, StreamViewerListFetchStatus(s) in Python: constructing
a StrEnum member from a string that is no member value raises ValueError
(and pydantic validation of fetch_status rejects it); modelled as none. -/
def StreamViewerListFetchStatus.fromValue (s : String) :
    Option StreamViewerListFetchStatus :=
  if s = "pending" then some .pending
  else if s = "in_queue" then some .in_queue
  else if s = "waiting_on_viewer_list" then some .waiting_on_viewer_list
  else if s = "complete" then some .complete
  else none

/-! ## server/core/viewerlist_fetcher/viewer_sightings_cache.py -/

/-- Value of one Redis hash at a cache key: field-level presence mirrors the
hash fields the Lua scripts create (HINCRBY creates times_seen, HSET creates
the named field). -/
structure RedisHashEntry where
  times_seen : Option Int
  enriched : Option String
  aggregated : Option String
  timestamp : Option String
  deriving DecidableEq

/-- Cached sighting record as returned by get_user_data and passed to
set_user_data; the ISO-8601 datetime is kept in its string form. -/
structure CachedViewerSighting where
  username : String
  times_seen : Int
  enriched : Bool
  aggregated : Bool
  timestamp : String
  deriving DecidableEq

/-- The backing store across all shards, as one keyed map: shard selection by
the stable MD5 hash of the login name routes every operation on a given
username to the same shard, so the union of the shards is a single map on
disjoint key sets. -/
abbrev SightingsStore : Type := List (String × RedisHashEntry)

/-- ViewerSightingsCache._get_key. -/
def ViewerSightingsCache.get_key (username : String) : String :=
  "viewer_sighting:" ++ username

/-- json.dumps of a Python bool. -/
def jsonDumpsBool (b : Bool) : String := if b then "true" else "false"

/-- json.loads as applied by get_user_data to the stored flag strings, which
are always json.dumps of a bool ("true" or "false", the latter also the
default for a missing field). -/
def jsonLoadsBool (s : String) : Bool := s = "true"

/-- ViewerSightingsCache.increment_times_seen: the atomic script runs
HINCRBY times_seen 1 (creating the hash when absent) then HSET timestamp to
the caller-side now, and returns the new count. -/
def ViewerSightingsCache.increment_times_seen (store : SightingsStore)
    (username : String) (now : String) : Int × SightingsStore :=
  let key := ViewerSightingsCache.get_key username
  let entry := (dictGet store key).getD
    { times_seen := none, enriched := none, aggregated := none,
      timestamp := none }
  let current := entry.times_seen.getD 0 + 1
  (current, dictSet store key
    { entry with times_seen := some current, timestamp := some now })

/-- ViewerSightingsCache.set_enriched: the atomic script sets the enriched
field only when the key exists, and the method returns that existence flag. -/
def ViewerSightingsCache.set_enriched (store : SightingsStore)
    (username : String) (v : Bool) : Bool × SightingsStore :=
  let key := ViewerSightingsCache.get_key username
  match dictGet store key with
  | none => (false, store)
  | some e =>
      (true, dictSet store key { e with enriched := some (jsonDumpsBool v) })

/-- ViewerSightingsCache.set_aggregated: same contract on the aggregated
field. -/
def ViewerSightingsCache.set_aggregated (store : SightingsStore)
    (username : String) (v : Bool) : Bool × SightingsStore :=
  let key := ViewerSightingsCache.get_key username
  match dictGet store key with
  | none => (false, store)
  | some e =>
      (true, dictSet store key { e with aggregated := some (jsonDumpsBool v) })

/-- ViewerSightingsCache.get_user_data: HGETALL via the fetch script; an
absent key returns None, otherwise the fields are parsed with the source
defaults (times_seen 0, flags "false"); a missing timestamp defaults to the
current instant, passed here as now. -/
def ViewerSightingsCache.get_user_data (store : SightingsStore)
    (username : String) (now : String) : Option CachedViewerSighting :=
  match dictGet store (ViewerSightingsCache.get_key username) with
  | none => none
  | some e => some
      { username := username
      , times_seen := e.times_seen.getD 0
      , enriched := jsonLoadsBool (e.enriched.getD "false")
      , aggregated := jsonLoadsBool (e.aggregated.getD "false")
      , timestamp := e.timestamp.getD now }

/-- ViewerSightingsCache.set_user_data, the upsert: when the key exists the
atomic script increments times_seen by one and overwrites the flags and
timestamp from the record; when absent it sets all four fields from the
record. -/
def ViewerSightingsCache.set_user_data (store : SightingsStore)
    (s : CachedViewerSighting) : SightingsStore :=
  let key := ViewerSightingsCache.get_key s.username
  match dictGet store key with
  | some e => dictSet store key
      { e with times_seen := some (e.times_seen.getD 0 + 1)
             , enriched := some (jsonDumpsBool s.enriched)
             , aggregated := some (jsonDumpsBool s.aggregated)
             , timestamp := some s.timestamp }
  | none => dictSet store key
      { times_seen := some s.times_seen
      , enriched := some (jsonDumpsBool s.enriched)
      , aggregated := some (jsonDumpsBool s.aggregated)
      , timestamp := some s.timestamp }

/-! ## server/core/viewerlist_fetcher/channel_listener.py -/

/-- Numeric constant IRC_CHATTER_LIST_MSG. -/
def IRC_CHATTER_LIST_MSG : String := "353"

/-- Numeric constant IRC_END_OF_NAMES_MSG. -/
def IRC_END_OF_NAMES_MSG : String := "366"

/-- Per-channel overall timeout OVERALL_TIMEOUT, in seconds. -/
def OVERALL_TIMEOUT : Int := 10

/-- Python exceptions that can escape the listener paths modelled here. -/
inductive PyErr
  | keyError (key : String)
  | indexError
  | valueError (msg : String)
  | vlFetcherError (msg : String)
  | vlFetcherChannelJoinError
  | vlFetcherChannelPartError
  | vlFetcherOvertimeError
  deriving DecidableEq

/-- Per-channel state tracked by the listener (ViewerListFetchData):
user_names is a Python set modelled as a duplicate-free list in
first-insertion order; the time fields are perf_counter instants. -/
structure ViewerListFetchData where
  user_names : List String
  done : Bool
  start_time : Int
  end_time : Option Int
  time_elapsed : Option Int
  error : Option PyErr
  deriving DecidableEq

/-- ViewerListFetchData() with its default fields, start_time taken from
perf_counter at construction. -/
def ViewerListFetchData.mk0 (now : Int) : ViewerListFetchData :=
  { user_names := [], done := false, start_time := now, end_time := none,
    time_elapsed := none, error := none }

/-- ViewerListFetchData.calculate_final_time_elapsed: sets time_elapsed when
both start_time and end_time are set. -/
def ViewerListFetchData.calculate_final_time_elapsed
    (d : ViewerListFetchData) : ViewerListFetchData :=
  match d.end_time with
  | some e => { d with time_elapsed := some (e - d.start_time) }
  | none => d

/-- Listener state: the _user_lists dict plus the PART commands issued so
far (one entry per part_channels call). -/
structure ListenerState where
  user_lists : List (String × ViewerListFetchData)
  parts_issued : List String
  deriving DecidableEq

/-- Environment for the IRC transport interactions: whether join_channels
and part_channels succeed for a channel, and what get_channel reports as
already-cached chatters right after a join. -/
structure IrcEnv where
  joinOk : String → Bool
  partOk : String → Bool
  cachedChatters : String → Option (List String)

/-- ViewerListFetcherChannelListener._process_join_message: parses
":username!username@username.tmi.twitch.tv JOIN #channel_name", adds the
user under the channel, and returns the channel name; the dict access raises
KeyError when the channel is not a key of _user_lists, and a message with no
hash character raises IndexError. -/
def ViewerListFetcherChannelListener.process_join_message (st : ListenerState) (msg : String) :
    Except PyErr (String × ListenerState) :=
  match (pySplitC '#' msg).get? 1 with
  | none => .error .indexError
  | some piece =>
      let channel_name := pyStrip piece
      let username :=
        pyStrip (String.mk (((pySplitC '!' msg).headD "").toList.drop 1))
      match dictGet st.user_lists channel_name with
      | none => .error (.keyError channel_name)
      | some d =>
          let d1 := { d with user_names := pySetAdd d.user_names username }
          .ok (channel_name,
            { st with user_lists := dictSet st.user_lists channel_name d1 })

/-- ViewerListFetcherChannelListener._process_chatter_list_message: splits
the 353 message on colons; with more than two pieces, the channel is the
last whitespace token of the prefix portion stripped of the leading hash
(raising VLFetcherError when it is not a key of _user_lists), and the names
are the colon-trailing payload split on spaces, gathered as a set and merged
into the channel's name-set; otherwise VLFetcherError.  Python set iteration
order is unspecified; the model keeps first-occurrence order, which affects
only the order of the modelled name list, never its membership. -/
def ViewerListFetcherChannelListener.process_chatter_list_message (st : ListenerState)
    (msg : String) : Except PyErr (String × ListenerState) :=
  let parts := pySplitC ':' msg
  if parts.length > 2 then
    match (pySplitWs (pyStrip (parts.getD 1 ""))).getLast? with
    | none => .error .indexError
    | some last =>
        let channel_name := pyLstrip '#' last
        match dictGet st.user_lists channel_name with
        | none => .error (.vlFetcherError "channel not in user_list error")
        | some d =>
            let user_list := pySetOf (pySplitWs (parts.getD 2 ""))
            let d1 := { d with user_names := pySetUpdate d.user_names user_list }
            .ok (channel_name,
              { st with user_lists := dictSet st.user_lists channel_name d1 })
  else .error (.vlFetcherError "Failed to parse 353 chatter list message.")

/-- ViewerListFetcherChannelListener._process_end_of_names: splits the 366
message on colons and returns the channel named by the last whitespace token
of the prefix portion, stripped of the leading hash; raises VLFetcherError
on fewer than three pieces. -/
def ViewerListFetcherChannelListener.process_end_of_names (msg : String) : Except PyErr String :=
  let parts := pySplitC ':' msg
  if parts.length > 2 then
    match (pySplitWs (pyStrip (parts.getD 1 ""))).getLast? with
    | none => .error .indexError
    | some last => .ok (pyLstrip '#' last)
  else .error (.vlFetcherError "Failed to parse 366 end-of-names message.")

/-- ViewerListFetcherChannelListener._part_from_channel at instant now:
raises ValueError on a None channel; a channel missing from _user_lists
raises VLFetcherChannelPartError (wrapping the KeyError); otherwise records
end_time, computes the final elapsed time, marks the channel done, and
issues one PART; a transport failure of part_channels records the error
under the channel and raises VLFetcherChannelPartError with those mutations
already applied, which the error value carries. -/
def ViewerListFetcherChannelListener.part_from_channel (env : IrcEnv) (st : ListenerState)
    (channel_name : Option String) (now : Int) :
    Except (PyErr × ListenerState) ListenerState :=
  match channel_name with
  | none => .error (.valueError "Cannot part from None channel.", st)
  | some ch =>
      match dictGet st.user_lists ch with
      | none => .error (.vlFetcherChannelPartError, st)
      | some d =>
          let d1 := ViewerListFetchData.calculate_final_time_elapsed
            { d with end_time := some now }
          let d2 := { d1 with done := true }
          if env.partOk ch then
            .ok { user_lists := dictSet st.user_lists ch d2,
                  parts_issued := st.parts_issued ++ [ch] }
          else
            let d3 := { d2 with error := some .vlFetcherChannelPartError }
            .error (.vlFetcherChannelPartError,
              { st with user_lists := dictSet st.user_lists ch d3 })

/-- Tail of the per-submessage try block after the JOIN and 353 checks: the
366 check.  On success the channel name is recorded and the end-of-names
flag set; an exception is caught by the broad handler, keeping prior
results. -/
def ViewerListFetcherChannelListener.submessage366 (st : ListenerState)
    (channelName : Option String) (endOfNames : Bool) (sub : String) :
    ListenerState × Option String × Bool :=
  if strContains sub IRC_END_OF_NAMES_MSG then
    match ViewerListFetcherChannelListener.process_end_of_names sub with
    | .error _ => (st, channelName, endOfNames)
    | .ok c => (st, some c, true)
  else (st, channelName, endOfNames)

/-- Tail of the per-submessage try block after the JOIN check: the 353 check
followed by the 366 check.  An exception in the 353 processor aborts the
rest of the try block for this submessage. -/
def ViewerListFetcherChannelListener.submessage353 (st : ListenerState)
    (channelName : Option String) (endOfNames : Bool) (sub : String) :
    ListenerState × Option String × Bool :=
  if strContains sub IRC_CHATTER_LIST_MSG then
    match ViewerListFetcherChannelListener.process_chatter_list_message st sub with
    | .error _ => (st, channelName, endOfNames)
    | .ok (c, st1) => ViewerListFetcherChannelListener.submessage366 st1 (some c) endOfNames sub
  else ViewerListFetcherChannelListener.submessage366 st channelName endOfNames sub

/-- One submessage of event_raw_data: the three substring checks (JOIN, 353,
366) run in order inside one try block, so an exception skips the rest of
the checks for that submessage while the loop continues; each successful
processor overwrites channel_name. -/
def ViewerListFetcherChannelListener.processSubmessage (st : ListenerState)
    (channelName : Option String) (endOfNames : Bool) (sub : String) :
    ListenerState × Option String × Bool :=
  if strContains sub "JOIN" then
    match ViewerListFetcherChannelListener.process_join_message st sub with
    | .error _ => (st, channelName, endOfNames)
    | .ok (c, st1) => ViewerListFetcherChannelListener.submessage353 st1 (some c) endOfNames sub
  else ViewerListFetcherChannelListener.submessage353 st channelName endOfNames sub

/-- ViewerListFetcherChannelListener.event_raw_data at instant now: when the
frame contains a CRLF it is split on CRLF into submessages, otherwise
processed whole; the submessages are processed in order, and when an
end-of-names was received the listener parts from the last recorded
channel. -/
def ViewerListFetcherChannelListener.event_raw_data (env : IrcEnv) (st : ListenerState)
    (data : String) (now : Int) : Except (PyErr × ListenerState) ListenerState :=
  let submessages :=
    if strContains data "\r\n" then pySplitCrlf data else [data]
  let folded := submessages.foldl
    (fun acc sub =>
      ViewerListFetcherChannelListener.processSubmessage acc.1 acc.2.1 acc.2.2 sub)
    (st, none, false)
  if folded.2.2 then
    ViewerListFetcherChannelListener.part_from_channel env folded.1 folded.2.1 now
  else .ok folded.1

/-- The dict comprehension at the top of fetch_viewer_list_for_channels:
fresh ViewerListFetchData under the lowercased name of every channel of the
batch (a repeated key keeps one entry, as in a Python dict). -/
def ViewerListFetcherChannelListener.prepUserLists (channels : List String) (now : Int) :
    List (String × ViewerListFetchData) :=
  channels.foldl
    (fun d ch => dictSet d (pyLower ch) (ViewerListFetchData.mk0 now)) []

/-- ViewerListFetcherChannelListener._join_channel with the ready event
already set: join the channel over IRC; when get_channel returns a cached
channel object, merge its chatters into _user_lists[channel_name], whose
dict access raises KeyError when the key is missing; a TwitchIO failure
stores the error and done under the channel (the same dict access, so a
missing key again raises KeyError) and raises VLFetcherChannelJoinError. -/
def ViewerListFetcherChannelListener.join_channel (env : IrcEnv) (st : ListenerState)
    (channel_name : String) : Except (PyErr × ListenerState) ListenerState :=
  if env.joinOk channel_name then
    match env.cachedChatters channel_name with
    | none => .ok st
    | some chatters =>
        match dictGet st.user_lists channel_name with
        | none => .error (.keyError channel_name, st)
        | some d =>
            let d1 := { d with user_names := pySetUpdate d.user_names chatters }
            .ok { st with user_lists := dictSet st.user_lists channel_name d1 }
  else
    match dictGet st.user_lists channel_name with
    | none => .error (.keyError channel_name, st)
    | some d =>
        let d1 := { d with error := some .vlFetcherChannelJoinError,
                           done := true }
        .error (.vlFetcherChannelJoinError,
          { st with user_lists := dictSet st.user_lists channel_name d1 })

/-- ViewerListFetcherChannelListener._wait_for_user_list, modelled for runs
in which no further inbound frame arrives during the wait: the while
condition performs the dict access _user_lists[channel_name] first, raising
KeyError when the key is missing; with done already set the loop exits at
once; otherwise the per-channel deadline OVERALL_TIMEOUT expires and
VLFetcherOvertimeError is raised. -/
def ViewerListFetcherChannelListener.wait_for_user_list (st : ListenerState)
    (channel_name : String) : Except PyErr Unit :=
  match dictGet st.user_lists channel_name with
  | none => .error (.keyError channel_name)
  | some d => if d.done then .ok () else .error .vlFetcherOvertimeError

/-- ViewerListFetcherChannelListener._process_channel_task at instant now:
join, then wait; only VLFetcherOvertimeError is caught, in which case the
channel records end_time, elapsed time, done and the error; every other
exception (KeyError included) propagates. -/
def ViewerListFetcherChannelListener.process_channel_task (env : IrcEnv) (st : ListenerState)
    (channel_name : String) (now : Int) :
    Except (PyErr × ListenerState) ListenerState :=
  match ViewerListFetcherChannelListener.join_channel env st channel_name with
  | .error e => .error e
  | .ok st1 =>
      match ViewerListFetcherChannelListener.wait_for_user_list st1 channel_name with
      | .ok _ => .ok st1
      | .error .vlFetcherOvertimeError =>
          match dictGet st1.user_lists channel_name with
          | none => .error (.keyError channel_name, st1)
          | some d =>
              let d1 := ViewerListFetchData.calculate_final_time_elapsed
                { d with end_time := some now }
              let d2 := { d1 with done := true,
                                  error := some .vlFetcherOvertimeError }
              .ok { st1 with
                user_lists := dictSet st1.user_lists channel_name d2 }
      | .error e => .error (e, st1)

/-- ViewerListFetcherChannelListener._kick_off_listener_tasks: one task per
channel of the batch, gathered; modelled sequentially in batch order, which
is exact for the single-channel batches the theorems evaluate. -/
def ViewerListFetcherChannelListener.kick_off_listener_tasks (env : IrcEnv) :
    ListenerState → List String → Int →
    Except (PyErr × ListenerState) ListenerState
  | st, [], _ => .ok st
  | st, ch :: rest, now =>
      match ViewerListFetcherChannelListener.process_channel_task env st ch now with
      | .error e => .error e
      | .ok st1 => ViewerListFetcherChannelListener.kick_off_listener_tasks env st1 rest now

/-- ViewerListFetcherChannelListener.fetch_viewer_list_for_channels at
instant now: rebuilds _user_lists with the lowercased keys of the batch,
then kicks off the listener tasks with the original channels list; the
except clause catches only the TwitchIO error types and re-raises, so every
exception (KeyError included) propagates to the caller; on success the
_user_lists dict is returned. -/
def ViewerListFetcherChannelListener.fetch_viewer_list_for_channels (env : IrcEnv)
    (channels : List String) (now : Int) :
    Except (PyErr × ListenerState) ListenerState :=
  let st0 : ListenerState :=
    { user_lists := ViewerListFetcherChannelListener.prepUserLists channels now,
      parts_issued := [] }
  ViewerListFetcherChannelListener.kick_off_listener_tasks env st0 channels now

/-! ## Concrete scenario inputs -/

/-- IRC environment with a healthy transport: joins and parts succeed and
get_channel has no cached chatters yet. -/
def envAllOk : IrcEnv :=
  { joinOk := fun _ => true, partOk := fun _ => true,
    cachedChatters := fun _ => none }

/-- The inbound frame of the single-channel scenario: a 353 line with
trailing payload "alice bob" followed by a 366 line for the channel,
CRLF-separated. -/
def c6frame : String :=
  ":u.tmi.twitch.tv 353 bot = #coolstreamer :alice bob\r\n:u.tmi.twitch.tv 366 bot #coolstreamer :End of /NAMES list\r\n"

/-! ## Helper lemmas -/

/-- Setting a key and reading it back yields the set value. -/
theorem dictGet_dictSet_self {α : Type} (d : List (String × α)) (k : String)
    (v : α) : dictGet (dictSet d k v) k = some v := by
  induction d with
  | nil => simp [dictSet, dictGet]
  | cons p rest ih =>
      obtain ⟨k2, v2⟩ := p
      by_cases hk : k2 = k
      · simp [dictSet, dictGet, hk]
      · simp [dictSet, dictGet, hk, ih]

/-- The stored flag strings round-trip through the bool codecs. -/
theorem jsonLoadsBool_jsonDumpsBool (b : Bool) :
    jsonLoadsBool (jsonDumpsBool b) = b := by cases b <;> decide

/-! ## Claims -/

/-- C1: the claim bounds item-transferring refills — an update called less
than W after the most recent transferring refill performs no transfer and
returns False, so two transferring refills are never less than W apart.
For the Workbench the source constructs this holds because no refill ever
transfers at all: within the window the timer gate returns False and
changes nothing, and past the gate every call raises TypeError inside
remaining_space() — whose stored size limit is the string "queue" through
the argument-swapped builder — before any dequeue runs.  Hence every update
call leaves both queues unchanged, never returns True, and at most one
(indeed zero) transfer occurs per window W. -/
theorem workbench_update_never_transfers (wb : Workbench) (now : Int) :
    (wb.ratelimitTimebox + wb.lastUpdateTimemarker ≥ now →
      Workbench.update wb now = .returns false wb)
  ∧ (wb.ratelimitTimebox + wb.lastUpdateTimemarker < now →
      Workbench.update wb now = .raises wb)
  ∧ (Workbench.update wb now = .returns false wb
      ∨ Workbench.update wb now = .raises wb) := by
  refine ⟨?_, ?_, ?_⟩
  · intro h
    unfold Workbench.update
    rw [if_pos h]
  · intro h
    have h2 : ¬ wb.ratelimitTimebox + wb.lastUpdateTimemarker ≥ now := by omega
    unfold Workbench.update
    rw [if_neg h2]
    rfl
  · by_cases h : wb.ratelimitTimebox + wb.lastUpdateTimemarker ≥ now
    · left
      unfold Workbench.update
      rw [if_pos h]
    · right
      unfold Workbench.update
      rw [if_neg h]
      rfl

/-- Witness for C1 at a Workbench built at instant 0 with W = 10, join
limit 20 and a non-empty pending queue: an update inside the window (at 5)
returns False unchanged and an update past the window (at 11) raises the
TypeError, transferring nothing. -/
theorem workbench_update_never_transfers_witness :
    Workbench.update
      { lastUpdateTimemarker := 0, ratelimitTimebox := 10,
        joinLimitCount := 20, pending := ["a", "b"], workbench := [] } 5
    = .returns false
        { lastUpdateTimemarker := 0, ratelimitTimebox := 10,
          joinLimitCount := 20, pending := ["a", "b"], workbench := [] }
  ∧ Workbench.update
      { lastUpdateTimemarker := 0, ratelimitTimebox := 10,
        joinLimitCount := 20, pending := ["a", "b"], workbench := [] } 11
    = .raises
        { lastUpdateTimemarker := 0, ratelimitTimebox := 10,
          joinLimitCount := 20, pending := ["a", "b"], workbench := [] } :=
  ⟨(workbench_update_never_transfers
      { lastUpdateTimemarker := 0, ratelimitTimebox := 10,
        joinLimitCount := 20, pending := ["a", "b"], workbench := [] } 5).1
      (by decide),
   (workbench_update_never_transfers
      { lastUpdateTimemarker := 0, ratelimitTimebox := 10,
        joinLimitCount := 20, pending := ["a", "b"], workbench := [] } 11).2.1
      (by decide)⟩

/-- C2: the claim says a queue obtained from the builder with capacity c
rejects enqueues only when full (QueueFull) and appends otherwise.  The
builder passes its arguments positionally as (name, size_limit, namespace)
into __init__(name, namespace, size_limit): the capacity lands in the
namespace (key becomes "20:workbench") and the string "queue" becomes the
size limit, so the interpolated Lua limit is tonumber(queue) = nil and every
enqueue — here on an empty queue far below capacity — fails with
RedisSharedQueueError and appends nothing.  With the parameters in keyword
order (as the repository tests construct the queue) the same enqueue
succeeds. -/
theorem get_redis_shared_queue_enqueue_fails_below_capacity :
    RedisSharedQueue.enqueue
      (get_redis_shared_queue
        { name := "workbench", size_limit := some 20, ns := "queue" })
      [] "item1"
    = (.redisSharedQueueError "Failed to enqueue.", [])
  ∧ (get_redis_shared_queue
      { name := "workbench", size_limit := some 20, ns := "queue" }).key
    = "20:workbench"
  ∧ RedisSharedQueue.enqueue
      (RedisSharedQueue.init "workbench" (.vStr "queue") (.vInt 20))
      [] "item1"
    = (.ok, ["item1"]) := by decide

/-- C3: the claim says an access_token call on stored credentials whose
expiry has passed performs exactly one refresh and returns the refreshed
token.  The code recomputes expiration_time as now + expires_in on every
call before comparing now against it, so for every stored secret with the
validated positive expires_in the refresh branch is unreachable: the call
returns the stale stored token and never invokes _refresh_tokens. -/
theorem get_access_token_never_refreshes (s : Secret)
    (sm : TwitchSecretsManager) (db : Option Secret) (resp : RefreshResponse)
    (now : Int) (hstore : sm.secrets_store = some s)
    (hpos : 0 < s.expires_in) :
    TwitchSecretsManager.get_access_token sm db resp now
    = .ok (s.access_token,
        { secrets_store := some s,
          expiration_time := some (now + s.expires_in) },
        false) := by
  have hlt : ¬ now ≥ now + s.expires_in := by omega
  unfold TwitchSecretsManager.get_access_token
  simp [hstore, hlt]

/-- Witness for C3: credentials ingested at instant 0 with expires_in 3600,
so their expiry 3600 has long passed at the query instant 7200; the call
still returns the stale token with no refresh. -/
theorem get_access_token_never_refreshes_witness :
    TwitchSecretsManager.get_access_token
      { secrets_store := some
          { access_token := "oldToken", refresh_token := "r",
            expires_in := 3600, token_type := "bearer",
            scope := "chat:read" },
        expiration_time := some 3600 }
      none
      { access_token := "newToken", refresh_token := "r2",
        expires_in := 3600 }
      7200
    = .ok ("oldToken",
        { secrets_store := some
            { access_token := "oldToken", refresh_token := "r",
              expires_in := 3600, token_type := "bearer",
              scope := "chat:read" },
          expiration_time := some 10800 },
        false) :=
  get_access_token_never_refreshes
    { access_token := "oldToken", refresh_token := "r", expires_in := 3600,
      token_type := "bearer", scope := "chat:read" }
    { secrets_store := some
        { access_token := "oldToken", refresh_token := "r",
          expires_in := 3600, token_type := "bearer", scope := "chat:read" },
      expiration_time := some 3600 }
    none
    { access_token := "newToken", refresh_token := "r2", expires_in := 3600 }
    7200 rfl (by decide)

/-- C4: the claim says fetch_viewer_list_for_channels lowercases its inputs
at batch entry and completes with the lowercased key set, in particular
batch ["TotallyLeGit"] yields result key "totallylegit".  Only the
_user_lists keys are lowercased; the per-channel tasks receive the
original-case names, so on the batch ["TotallyLeGit"] the wait loop indexes
the dict with "TotallyLeGit", which is missing, and the call raises KeyError
instead of completing. -/
theorem fetch_viewer_list_mixed_case_raises_keyerror :
    ViewerListFetcherChannelListener.fetch_viewer_list_for_channels envAllOk
      ["TotallyLeGit"] 0
    = .error (.keyError "TotallyLeGit",
        { user_lists := [("totallylegit", ViewerListFetchData.mk0 0)],
          parts_issued := [] }) := by decide

/-- C5: the claim says a dequeue returning the empty sentinel does not
terminate the processing loop (the worker idles and retries) and the loop
exits only on a shutdown request.  In the code the sentinel sets _working to
False: starting the loop with _working true on an empty workbench — and
with no set_state shutdown request anywhere in the run — the first
iteration ends the loop and the listener is closed. -/
theorem processing_loop_exits_on_empty_sentinel :
    ViewerListFetcher.processing_loop 2
      { working := true, workbench := [], processed := [],
        listenerClosed := false }
    = { working := false, workbench := [], processed := [],
        listenerClosed := true } := by decide

/-- C6: for the batch ["coolstreamer"] and one frame carrying a 353 line
with payload "alice bob" then a 366 line for the channel, CRLF-separated,
event_raw_data splits the frame on CRLF, records the 353 names, and on the
366 marks the channel done, records its end time (here instant 7 after a
start at 0), computes its duration, and issues exactly one PART; the result
for "coolstreamer" holds exactly the names alice and bob, done true and no
error. -/
theorem event_raw_data_records_names_and_parts_once :
    ViewerListFetcherChannelListener.event_raw_data envAllOk
      { user_lists :=
          ViewerListFetcherChannelListener.prepUserLists ["coolstreamer"] 0,
        parts_issued := [] } c6frame 7
    = .ok { user_lists := [("coolstreamer",
              { user_names := ["alice", "bob"], done := true,
                start_time := 0, end_time := some 7, time_elapsed := some 7,
                error := none })],
            parts_issued := ["coolstreamer"] } := by decide

/-- C7 counterexample: the claim says the Fetch status takes values in
{pending, in_queue, waiting_on_viewer_list, complete, errored} and that an
abnormally terminating Fetch can be recorded with status errored; but the
status enum has exactly the four members below and the value lookup rejects
"errored". -/
theorem fetch_status_errored_is_not_a_member :
    StreamViewerListFetchStatus.fromValue "errored" = none
  ∧ fetchStatusChain.map StreamViewerListFetchStatus.value
    = ["pending", "in_queue", "waiting_on_viewer_list", "complete"] := by
  decide

/-- C7 (amended): every Fetch status takes its value in the four-element
chain pending → in_queue → waiting_on_viewer_list → complete (in that
declaration order), each value looks up to its member, and no status is
errored, so an abnormally terminating Fetch cannot be recorded with a
distinct errored status. -/
theorem fetch_status_values_form_the_four_step_chain :
    ∀ s : StreamViewerListFetchStatus,
      s ∈ fetchStatusChain
      ∧ StreamViewerListFetchStatus.fromValue s.value = some s
      ∧ s.value ≠ "errored" := by
  intro s
  cases s <;> refine ⟨by decide, by decide, by decide⟩

/-- C8: upsert followed by get yields the upserted record.  When the key was
absent, get returns exactly the record (all four stored fields from it);
when the key already existed, get returns the record with times_seen equal
to the previously stored count plus one while the flags and timestamp come
from the upserted record. -/
theorem upsert_then_get_yields_upserted_record (store : SightingsStore)
    (r : CachedViewerSighting) (now : String) :
    (dictGet store (ViewerSightingsCache.get_key r.username) = none →
      ViewerSightingsCache.get_user_data
        (ViewerSightingsCache.set_user_data store r) r.username now
      = some r)
  ∧ (∀ e : RedisHashEntry,
      dictGet store (ViewerSightingsCache.get_key r.username) = some e →
      ViewerSightingsCache.get_user_data
        (ViewerSightingsCache.set_user_data store r) r.username now
      = some { username := r.username,
               times_seen := e.times_seen.getD 0 + 1,
               enriched := r.enriched, aggregated := r.aggregated,
               timestamp := r.timestamp }) := by
  obtain ⟨u, t, en, ag, ts⟩ := r
  constructor
  · intro h
    simp only [ViewerSightingsCache.set_user_data,
      ViewerSightingsCache.get_user_data, h, dictGet_dictSet_self]
    simp [jsonLoadsBool_jsonDumpsBool]
  · intro e h
    simp only [ViewerSightingsCache.set_user_data,
      ViewerSightingsCache.get_user_data, h, dictGet_dictSet_self]
    simp [jsonLoadsBool_jsonDumpsBool]

/-- Witness for C8: on the empty store the fresh record comes back intact,
and upserting the same login again returns the stored count plus one with
the overwritten flags and timestamp. -/
theorem upsert_then_get_yields_upserted_record_witness :
    ViewerSightingsCache.get_user_data
      (ViewerSightingsCache.set_user_data []
        { username := "alice", times_seen := 1, enriched := false,
          aggregated := false, timestamp := "T1" }) "alice" "T9"
    = some { username := "alice", times_seen := 1, enriched := false,
             aggregated := false, timestamp := "T1" }
  ∧ ViewerSightingsCache.get_user_data
      (ViewerSightingsCache.set_user_data
        [("viewer_sighting:alice",
          { times_seen := some 4, enriched := some "false",
            aggregated := some "false", timestamp := some "T1" })]
        { username := "alice", times_seen := 1, enriched := true,
          aggregated := false, timestamp := "T2" }) "alice" "T9"
    = some { username := "alice", times_seen := 5, enriched := true,
             aggregated := false, timestamp := "T2" } :=
  ⟨(upsert_then_get_yields_upserted_record []
      { username := "alice", times_seen := 1, enriched := false,
        aggregated := false, timestamp := "T1" } "T9").1 rfl,
   (upsert_then_get_yields_upserted_record
      [("viewer_sighting:alice",
        { times_seen := some 4, enriched := some "false",
          aggregated := some "false", timestamp := some "T1" })]
      { username := "alice", times_seen := 1, enriched := true,
        aggregated := false, timestamp := "T2" } "T9").2
     { times_seen := some 4, enriched := some "false",
       aggregated := some "false", timestamp := some "T1" } rfl⟩

/-- C9: the flag setters never touch times_seen — with the key present they
set exactly the requested flag field and return true, with the key absent
they leave the store untouched and return false — and increment_times_seen
writes exactly the times_seen and timestamp fields (creating the hash with
count 1 when absent), never the enriched or aggregated flags. -/
theorem flag_setters_and_increment_frame (store : SightingsStore)
    (login : String) (v : Bool) (now : String) :
    (dictGet store (ViewerSightingsCache.get_key login) = none →
      ViewerSightingsCache.set_enriched store login v = (false, store)
      ∧ ViewerSightingsCache.set_aggregated store login v = (false, store)
      ∧ ViewerSightingsCache.increment_times_seen store login now
        = (1, dictSet store (ViewerSightingsCache.get_key login)
            { times_seen := some 1, enriched := none, aggregated := none,
              timestamp := some now }))
  ∧ (∀ e : RedisHashEntry,
      dictGet store (ViewerSightingsCache.get_key login) = some e →
      ViewerSightingsCache.set_enriched store login v
        = (true, dictSet store (ViewerSightingsCache.get_key login)
            { e with enriched := some (jsonDumpsBool v) })
      ∧ ViewerSightingsCache.set_aggregated store login v
        = (true, dictSet store (ViewerSightingsCache.get_key login)
            { e with aggregated := some (jsonDumpsBool v) })
      ∧ ViewerSightingsCache.increment_times_seen store login now
        = (e.times_seen.getD 0 + 1,
           dictSet store (ViewerSightingsCache.get_key login)
            { e with times_seen := some (e.times_seen.getD 0 + 1),
                     timestamp := some now })) := by
  constructor
  · intro h
    refine ⟨?_, ?_, ?_⟩ <;>
      simp only [ViewerSightingsCache.set_enriched,
        ViewerSightingsCache.set_aggregated,
        ViewerSightingsCache.increment_times_seen, h] <;> rfl
  · intro e h
    refine ⟨?_, ?_, ?_⟩ <;>
      simp only [ViewerSightingsCache.set_enriched,
        ViewerSightingsCache.set_aggregated,
        ViewerSightingsCache.increment_times_seen, h] <;> rfl

/-- Witness for C9: on the empty store both setters return false and change
nothing while increment creates the entry with count 1 and no flag fields;
on a store holding bob with count 2, set_enriched flips only the enriched
field, set_aggregated only the aggregated field, and increment returns 3
touching only the count and timestamp. -/
theorem flag_setters_and_increment_frame_witness :
    (ViewerSightingsCache.set_enriched [] "bob" true = (false, [])
      ∧ ViewerSightingsCache.set_aggregated [] "bob" true = (false, [])
      ∧ ViewerSightingsCache.increment_times_seen [] "bob" "T0"
        = (1, [("viewer_sighting:bob",
            { times_seen := some 1, enriched := none, aggregated := none,
              timestamp := some "T0" })]))
  ∧ (ViewerSightingsCache.set_enriched
        [("viewer_sighting:bob",
          { times_seen := some 2, enriched := some "false",
            aggregated := some "false", timestamp := some "T0" })]
        "bob" true
      = (true, [("viewer_sighting:bob",
          { times_seen := some 2, enriched := some "true",
            aggregated := some "false", timestamp := some "T0" })])
      ∧ ViewerSightingsCache.set_aggregated
        [("viewer_sighting:bob",
          { times_seen := some 2, enriched := some "false",
            aggregated := some "false", timestamp := some "T0" })]
        "bob" true
      = (true, [("viewer_sighting:bob",
          { times_seen := some 2, enriched := some "false",
            aggregated := some "true", timestamp := some "T0" })])
      ∧ ViewerSightingsCache.increment_times_seen
        [("viewer_sighting:bob",
          { times_seen := some 2, enriched := some "false",
            aggregated := some "false", timestamp := some "T0" })]
        "bob" "T5"
      = (3, [("viewer_sighting:bob",
          { times_seen := some 3, enriched := some "false",
            aggregated := some "false", timestamp := some "T5" })])) :=
  ⟨(flag_setters_and_increment_frame [] "bob" true "T0").1 rfl,
   (flag_setters_and_increment_frame
      [("viewer_sighting:bob",
        { times_seen := some 2, enriched := some "false",
          aggregated := some "false", timestamp := some "T0" })]
      "bob" true "T5").2
     { times_seen := some 2, enriched := some "false",
       aggregated := some "false", timestamp := some "T0" } rfl⟩

/-- C10: a dequeue on an empty queue returns the (None, empty-dict) sentinel
immediately via the queue_size pre-check — the blocking pop is never
attempted — for every timeout value, and the queue is left empty. -/
theorem dequeue_empty_returns_sentinel_without_blpop :
    ∀ timeout : Int,
      RedisSharedQueue.dequeue [] timeout = ((none, []), false, []) := by
  intro t
  rfl
